import Mathlib

/-!
Shallow embedding of the resilient Linear API client facade
(`src/services/linearService.ts`) of the linear-mcp-server repository.

Errors thrown in the TypeScript code are modelled by the `LinError`
structure (an `Error` with a message; `AppError`s additionally carry a
`statusCode` and a `code`).  Asynchronous remote calls are modelled as
functions from the attempt index to `Except LinError α`, so that each
re-invocation of a remote operation by the retry executor can observe a
different outcome.  Every facade method is embedded as a pure function
that also produces the list of observable events (rate-limiter starts,
remote-call starts, retry back-off delays) of its execution.
-/

/-- JavaScript `Error` / `AppError` values: `statusCode` and `code` are
`none` for plain errors and `some` for `AppError`s
(`src/utils/error.ts`). -/
structure LinError where
  message : String
  statusCode : Option Nat := none
  code : Option String := none
deriving Repr, DecidableEq

/-- Error codes from the MCP SDK (JSON-RPC): the TypeScript code stores
`String(ErrorCode.InternalError)` and `String(ErrorCode.InvalidRequest)`. -/
def ErrorCode.InternalError : String := "-32603"

/-- JSON-RPC invalid-request code, as stringified by the source. -/
def ErrorCode.InvalidRequest : String := "-32600"

/-- Whether the character list `hay` starts with the character list `needle`. -/
def listStartsWith : List Char → List Char → Bool
  | _, [] => true
  | [], _ :: _ => false
  | a :: as, b :: bs => a == b && listStartsWith as bs

/-- Whether `needle` occurs as a contiguous sublist of `hay`. -/
def listHasSub : List Char → List Char → Bool
  | [], needle => needle.isEmpty
  | c :: t, needle => listStartsWith (c :: t) needle || listHasSub t needle

/-- Model of JavaScript `hay.includes(sub)` on strings. -/
def strIncludes (hay sub : String) : Bool :=
  listHasSub hay.toList sub.toList

/-- Retry configuration record (`RETRY_CONFIG` in the source). -/
structure RetryConfig where
  maxRetries : Nat
  initialDelay : Nat
  maxDelay : Nat
  backoffMultiplier : Nat
deriving Repr, DecidableEq

/-- `RETRY_CONFIG = { maxRetries: 3, initialDelay: 1000, maxDelay: 10000,
backoffMultiplier: 2 }`. -/
def RETRY_CONFIG : RetryConfig :=
  { maxRetries := 3, initialDelay := 1000, maxDelay := 10000, backoffMultiplier := 2 }

/-- The non-retryable classification used by `withRetry`:
`lastError.message.includes('404') || lastError.message.includes('400')`. -/
def isClientError (e : LinError) : Bool :=
  strIncludes e.message "404" || strIncludes e.message "400"

/-- Observable events of a facade-method execution: a rate-limiter
admission (`pThrottle` wrapper entry), the start of one invocation of the
underlying remote call, and a retry back-off sleep of `ms` milliseconds. -/
inductive Ev where
  | throttleStart
  | remoteCall (name : String)
  | retryDelay (ms : Nat)
deriving Repr, DecidableEq

/-- Result of running an embedded method: the outcome (`.error` models a
thrown exception) together with the chronological event list. -/
structure MethodRun (A : Type) where
  result : Except LinError A
  events : List Ev

/-- Number of remote-call starts in an event list. -/
def callCount (evs : List Ev) : Nat :=
  (evs.filter fun e => match e with | .remoteCall _ => true | _ => false).length

/-- The back-off delays recorded in an event list, in order. -/
def delaysOf (evs : List Ev) : List Nat :=
  evs.filterMap fun e => match e with | .retryDelay d => some d | _ => none

/-- Loop body of `withRetry` (source lines 61–104).  `attempt` is the
0-based attempt index and `remaining = retries - attempt` is the number of
loop iterations still allowed after this one; the source's
`attempt === retries` exit test corresponds to `remaining = 0`. -/
def withRetryGo {A : Type} (fn : Nat → Except LinError A) (name : String)
    (attempt : Nat) : Nat → MethodRun A
  | 0 =>
    match fn attempt with
    | .ok a => ⟨.ok a, [.remoteCall name]⟩
    | .error e =>
      -- at the last attempt both the client-error check and the
      -- exhaustion check re-throw the caught error unchanged
      ⟨.error e, [.remoteCall name]⟩
  | remaining + 1 =>
    match fn attempt with
    | .ok a => ⟨.ok a, [.remoteCall name]⟩
    | .error e =>
      if isClientError e then ⟨.error e, [.remoteCall name]⟩
      else
        let d := min (RETRY_CONFIG.initialDelay * RETRY_CONFIG.backoffMultiplier ^ attempt)
          RETRY_CONFIG.maxDelay
        let t := withRetryGo fn name (attempt + 1) remaining
        ⟨t.result, .remoteCall name :: .retryDelay d :: t.events⟩

/-- `withRetry(fn, context)` with the default `retries = RETRY_CONFIG.maxRetries`. -/
def withRetry {A : Type} (fn : Nat → Except LinError A) (name : String)
    (retries : Nat := RETRY_CONFIG.maxRetries) : MethodRun A :=
  withRetryGo fn name 0 retries

/-- `handleLinearError` (source lines 109–126): wraps any caught error in
an `AppError` with HTTP status 500 and code `ErrorCode.InternalError`,
prefixing the operation context and the key parameters. -/
def handleLinearError (e : LinError) (context : String)
    (params : List (String × String)) : LinError :=
  let errorMessage := e.message
  let paramString := String.intercalate ", " (params.map fun p => p.1 ++ ": " ++ p.2)
  let fullMessage :=
    if paramString.isEmpty then context ++ ": " ++ errorMessage
    else context ++ " (" ++ paramString ++ "): " ++ errorMessage
  { message := fullMessage, statusCode := some 500, code := some ErrorCode.InternalError }

/-- The `pThrottle` wrapper around a method body: records the admission of
the wrapped call by the rate limiter before the body's own events. -/
def throttleWrap {A : Type} (r : MethodRun A) : MethodRun A :=
  ⟨r.result, Ev.throttleStart :: r.events⟩

/-- A cache entry with its absolute expiry time (`CacheEntry<T>`). -/
structure CacheEntry (T : Type) where
  data : T
  expiry : Nat
deriving Repr, DecidableEq

/-- Cache TTL for the viewer: 5 minutes in milliseconds. -/
def VIEWER_CACHE_TTL : Nat := 5 * 60 * 1000

/-- Cache TTL for the team list: 10 minutes in milliseconds. -/
def TEAMS_CACHE_TTL : Nat := 10 * 60 * 1000

/-- Cache TTL for workflow states: 15 minutes in milliseconds, per team. -/
def WORKFLOW_STATES_CACHE_TTL : Nat := 15 * 60 * 1000

/-- The current user as the facade sees it (`User` with the fields the
facade reads: `id` and `name`). -/
structure User where
  id : String
  name : String
deriving Repr, DecidableEq

/-- The two viewer-cache fields of the service
(`viewerCache?: User` and `viewerCacheExpiry?: number`). -/
structure ViewerCacheState where
  viewerCache : Option User := none
  viewerCacheExpiry : Option Nat := none
deriving Repr, DecidableEq

/-- `getCachedViewer` (source lines 181–196): return the cached viewer
when both cache fields are set and `now < viewerCacheExpiry`; otherwise
fetch `client.viewer` directly (no throttle, no retry) and, on success,
store it with expiry `now + VIEWER_CACHE_TTL`.  Returns the outcome, the
new cache state and whether a remote fetch was issued. -/
def getCachedViewer (st : ViewerCacheState) (now : Nat)
    (fresh : Except LinError User) :
    Except LinError User × ViewerCacheState × Bool :=
  match st.viewerCache, st.viewerCacheExpiry with
  | some v, some e =>
    if now < e then (.ok v, st, false)
    else
      match fresh with
      | .ok v' => (.ok v', ⟨some v', some (now + VIEWER_CACHE_TTL)⟩, true)
      | .error err => (.error err, st, true)
  | _, _ =>
    match fresh with
    | .ok v' => (.ok v', ⟨some v', some (now + VIEWER_CACHE_TTL)⟩, true)
    | .error err => (.error err, st, true)

/-- `getTeams` (source lines 213–241): the whole body runs under the
rate limiter; a valid cache entry (`now < expiry`) is returned without a
remote call; otherwise `client.teams()` is fetched through `withRetry`
and, on success, cached with expiry `now + TEAMS_CACHE_TTL`; a remote
failure is wrapped by `handleLinearError` and leaves the cache unchanged.
`T` is the opaque team-list payload. -/
def getTeams {T : Type} (st : Option (CacheEntry T)) (now : Nat)
    (remote : Nat → Except LinError T) :
    MethodRun T × Option (CacheEntry T) :=
  match st with
  | some entry =>
    if now < entry.expiry then (throttleWrap ⟨.ok entry.data, []⟩, st)
    else
      match withRetry remote "client.teams" with
      | ⟨.ok teams, evs⟩ =>
        (throttleWrap ⟨.ok teams, evs⟩, some ⟨teams, now + TEAMS_CACHE_TTL⟩)
      | ⟨.error e, evs⟩ =>
        (throttleWrap ⟨.error (handleLinearError e "Failed to fetch teams from Linear" []), evs⟩, st)
  | none =>
    match withRetry remote "client.teams" with
    | ⟨.ok teams, evs⟩ =>
      (throttleWrap ⟨.ok teams, evs⟩, some ⟨teams, now + TEAMS_CACHE_TTL⟩)
    | ⟨.error e, evs⟩ =>
      (throttleWrap ⟨.error (handleLinearError e "Failed to fetch teams from Linear" []), evs⟩, st)

/-- Association-list lookup modelling `Map.get` keyed by team id. -/
def mapGet {V : Type} : List (String × V) → String → Option V
  | [], _ => none
  | (k', v') :: rest, k => if k' = k then some v' else mapGet rest k

/-- Association-list update modelling `Map.set` keyed by team id. -/
def mapSet {V : Type} : List (String × V) → String → V → List (String × V)
  | [], k, v => [(k, v)]
  | (k', v') :: rest, k, v =>
    if k' = k then (k, v) :: rest else (k', v') :: mapSet rest k v

/-- `getWorkflowStates` (source lines 497–530): throttled; a valid cache
entry for `teamId` is returned without a remote call; otherwise the body
fetches `client.team(teamId)` and its states through `withRetry` (an
absent team raises a 404 `AppError` from inside the retried function),
caches the result per team with expiry `now + WORKFLOW_STATES_CACHE_TTL`,
and wraps failures with `handleLinearError`.  The remote behaviour yields
`none` when the team does not exist and `some states` otherwise. -/
def getWorkflowStates {S : Type}
    (cacheMap : List (String × CacheEntry S)) (now : Nat) (teamId : String)
    (remote : Nat → Except LinError (Option S)) :
    MethodRun S × List (String × CacheEntry S) :=
  match mapGet cacheMap teamId with
  | some cached =>
    if now < cached.expiry then (throttleWrap ⟨.ok cached.data, []⟩, cacheMap)
    else
      match withRetry (fun attempt =>
          match remote attempt with
          | .ok none => .error ⟨"Team not found: " ++ teamId, some 404, some ErrorCode.InvalidRequest⟩
          | .ok (some states) => .ok states
          | .error e => .error e) "client.team" with
      | ⟨.ok states, evs⟩ =>
        (throttleWrap ⟨.ok states, evs⟩,
          mapSet cacheMap teamId ⟨states, now + WORKFLOW_STATES_CACHE_TTL⟩)
      | ⟨.error e, evs⟩ =>
        (throttleWrap ⟨.error (handleLinearError e
          "Failed to fetch workflow states from Linear" [("teamId", teamId)]), evs⟩, cacheMap)
  | none =>
    match withRetry (fun attempt =>
        match remote attempt with
        | .ok none => .error ⟨"Team not found: " ++ teamId, some 404, some ErrorCode.InvalidRequest⟩
        | .ok (some states) => .ok states
        | .error e => .error e) "client.team" with
    | ⟨.ok states, evs⟩ =>
      (throttleWrap ⟨.ok states, evs⟩,
        mapSet cacheMap teamId ⟨states, now + WORKFLOW_STATES_CACHE_TTL⟩)
    | ⟨.error e, evs⟩ =>
      (throttleWrap ⟨.error (handleLinearError e
        "Failed to fetch workflow states from Linear" [("teamId", teamId)]), evs⟩, cacheMap)

/-- `getIssue` (source lines 460–478): throttled; `client.issue(issueId)`
runs through `withRetry`; a falsy result raises
`AppError('Issue not found: id', 404, InvalidRequest)` inside the `try`,
and every error caught there — including that 404 — is re-wrapped by
`handleLinearError`. -/
def getIssue {I : Type} (issueId : String)
    (remote : Nat → Except LinError (Option I)) : MethodRun I :=
  throttleWrap (
    match withRetry remote "client.issue" with
    | ⟨.ok (some issue), evs⟩ => ⟨.ok issue, evs⟩
    | ⟨.ok none, evs⟩ =>
      let notFound : LinError :=
        ⟨"Issue not found: " ++ issueId, some 404, some ErrorCode.InvalidRequest⟩
      ⟨.error (handleLinearError notFound "Failed to fetch issue from Linear"
        [("issueId", issueId)]), evs⟩
    | ⟨.error e, evs⟩ =>
      ⟨.error (handleLinearError e "Failed to fetch issue from Linear"
        [("issueId", issueId)]), evs⟩)

/-- `addComment` (source lines 549–572): throttled; `client.createComment`
runs through `withRetry`; an absent comment entity raises a 500
`AppError` inside the retried function; failures are wrapped by
`handleLinearError`. -/
def addComment {C : Type} (issueId : String)
    (remote : Nat → Except LinError (Option C)) : MethodRun C :=
  throttleWrap (
    match withRetry (fun attempt =>
        match remote attempt with
        | .ok none => .error ⟨"Failed to create comment", some 500, some ErrorCode.InternalError⟩
        | .ok (some c) => .ok c
        | .error e => .error e) "client.createComment" with
    | ⟨.ok c, evs⟩ => ⟨.ok c, evs⟩
    | ⟨.error e, evs⟩ =>
      ⟨.error (handleLinearError e "Failed to add comment to issue in Linear"
        [("issueId", issueId)]), evs⟩)

/-- Health-check result record (source lines 413–419). -/
structure HealthStatus where
  status : String
  apiConnected : Bool
  userId : Option String := none
  userName : Option String := none
  error : Option String := none
deriving Repr, DecidableEq

/-- `healthCheck` (source lines 413–442): throttled; fetches
`client.viewer` through `withRetry`; any error from the `try` block is
converted into a structured unhealthy result instead of being re-thrown. -/
def healthCheck (remote : Nat → Except LinError User) : MethodRun HealthStatus :=
  throttleWrap (
    match withRetry remote "client.viewer" with
    | ⟨.ok viewer, evs⟩ =>
      ⟨.ok { status := "healthy", apiConnected := true,
             userId := some viewer.id, userName := some viewer.name }, evs⟩
    | ⟨.error e, evs⟩ =>
      ⟨.ok { status := "unhealthy", apiConnected := false, error := some e.message }, evs⟩)

/-- JavaScript truthiness for an optional string argument:
`undefined` and the empty string are falsy. -/
def truthy : Option String → Bool
  | some s => !s.isEmpty
  | none => false

/-- The structured issue filter built by `searchIssues` (the `IssueFilter`
interface): each field stands for the corresponding equality /
substring clause, `none` meaning the key is absent. -/
structure IssueFilter where
  team : Option String := none
  state : Option String := none
  assignee : Option String := none
  title : Option String := none
deriving Repr, DecidableEq

/-- The request `searchIssues` passes to `client.issues`. -/
structure SearchRequest where
  first : Nat
  filter : IssueFilter
deriving Repr, DecidableEq

/-- Outcome of an embedded `searchIssues` call: the run and the request
that was handed to the remote capability — `none` when the call threw
while still building the filter, before any `client.issues` request was
made. -/
structure SearchRun (I : Type) where
  run : MethodRun (List I)
  request : Option SearchRequest

/-- Request construction of `searchIssues` (source lines 274–310): caps
the limit at 250 and builds the filter from the truthy arguments,
resolving the `'me'` sentinel to the cached viewer's id (`viewerId`
abstracts the id `getCachedViewer` resolves to); a non-blank `query`
adds a case-insensitive title clause. -/
def buildSearchRequest (viewerId : String) (query : String)
    (teamId status assigneeId : Option String) (limit : Nat) : SearchRequest :=
  let cappedLimit := min limit 250
  let filter0 : IssueFilter := {}
  let filter1 := if truthy teamId then { filter0 with team := teamId } else filter0
  let filter2 := if truthy status then { filter1 with state := status } else filter1
  let filter3 :=
    if truthy assigneeId then
      if assigneeId = some "me" then { filter2 with assignee := some viewerId }
      else { filter2 with assignee := assigneeId }
    else filter2
  let filter4 :=
    if !query.isEmpty && !query.trim.isEmpty then { filter3 with title := some query.trim }
    else filter3
  { first := cappedLimit, filter := filter4 }

/-- The tail of `searchIssues` once the filter is fully built: the
`client.issues` call receives the request and runs through `withRetry`;
failures are wrapped by `handleLinearError`. -/
def searchIssuesFetch {I : Type} (remote : SearchRequest → Nat → Except LinError (List I))
    (query : String) (request : SearchRequest) : SearchRun I :=
  match withRetry (remote request) "client.issues" with
  | ⟨.ok issues, evs⟩ => ⟨⟨.ok issues, evs⟩, some request⟩
  | ⟨.error e, evs⟩ =>
    ⟨⟨.error (handleLinearError e "Failed to search issues in Linear"
      [("query", query)]), evs⟩, some request⟩

/-- `searchIssues` (source lines 266–324): not throttled; while the
filter is being built inside the `try`, a truthy `assigneeId` equal to
the `'me'` sentinel awaits `getCachedViewer()` (line 298) — `viewer` is
that resolution's outcome, and when it throws, the `catch` wraps the
error and `client.issues` is never called; otherwise the built request
runs through `withRetry` (the `else` branch passes an unused placeholder
viewer id to the request builder, whose `'me'` clause is unreachable
there).  The source-parameter order
`(query, teamId?, status?, assigneeId?, limit=50)` is kept, with the
model parameters `viewer` and `remote` in front so the defaulted `limit`
can stay last; the attempt index lets the retry executor observe one
remote outcome per attempt. -/
def searchIssues {I : Type} (viewer : Except LinError User)
    (remote : SearchRequest → Nat → Except LinError (List I))
    (query : String) (teamId status assigneeId : Option String)
    (limit : Nat := 50) : SearchRun I :=
  if truthy assigneeId && assigneeId == some "me" then
    match viewer with
    | .error e =>
      ⟨⟨.error (handleLinearError e "Failed to search issues in Linear"
        [("query", query)]), []⟩, none⟩
    | .ok v =>
      searchIssuesFetch remote query (buildSearchRequest v.id query teamId status assigneeId limit)
  else
    searchIssuesFetch remote query (buildSearchRequest "" query teamId status assigneeId limit)

/-- The input object `createIssue` sends to `client.createIssue`
(the `IssueCreateInput` interface); a `none` field means the key is
absent from the object, and `assigneeId = some none` would mean an
explicit `null`. -/
structure IssueCreateInput where
  teamId : String
  title : String
  description : Option String := none
  assigneeId : Option (Option String) := none
  priority : Option Int := none
deriving Repr, DecidableEq

/-- Outcome of an embedded `createIssue` call. -/
structure CreateRun (I : Type) where
  run : MethodRun I
  input : IssueCreateInput

/-- Input construction of `createIssue` (source lines 368–381): starts
from `{teamId, title}`, adds `description` only when truthy, `priority`
only when not `undefined`, and `assigneeId` resolved from the `'me'`
sentinel (via the cached viewer, abstracted by `viewerId`) or passed
through when truthy. -/
def buildCreateInput (viewerId : String) (teamId title : String)
    (description : Option String) (assigneeId : Option String)
    (priority : Option Int) : IssueCreateInput :=
  let input0 : IssueCreateInput := { teamId := teamId, title := title }
  let input1 := if truthy description then { input0 with description := description } else input0
  let input2 :=
    match priority with
    | some p => { input1 with priority := some p }
    | none => input1
  if assigneeId = some "me" then { input2 with assigneeId := some (some viewerId) }
  else if truthy assigneeId then
    match assigneeId with
    | some a => { input2 with assigneeId := some (some a) }
    | none => input2
  else input2

/-- `createIssue` (source lines 352–395): not throttled; the
`client.createIssue` call receives the built input and runs through
`withRetry`; an absent created issue raises a 500 `AppError` inside the
retried function, and failures are wrapped by `handleLinearError`. -/
def createIssue {I : Type} (viewerId : String)
    (remote : IssueCreateInput → Nat → Except LinError (Option I))
    (teamId title : String) (description : Option String)
    (assigneeId : Option String) (priority : Option Int) : CreateRun I :=
  let input := buildCreateInput viewerId teamId title description assigneeId priority
  match withRetry (fun attempt =>
      match remote input attempt with
      | .ok none => .error ⟨"Failed to create issue", some 500, some ErrorCode.InternalError⟩
      | .ok (some issue) => .ok issue
      | .error e => .error e) "client.createIssue" with
  | ⟨.ok issue, evs⟩ => ⟨⟨.ok issue, evs⟩, input⟩
  | ⟨.error e, evs⟩ =>
    ⟨⟨.error (handleLinearError e "Failed to create issue in Linear"
      [("teamId", teamId), ("title", title)]), evs⟩, input⟩

/-- The `updates.assigneeId` argument of `updateIssue`:
`string | null | undefined` in the source. -/
inductive JsAssignee where
  | undef
  | null
  | str (s : String)
deriving Repr, DecidableEq

/-- The `updates` object passed to `updateIssue`; a `none` field models
an `undefined` (absent) property. -/
structure UpdateArgs where
  title : Option String := none
  description : Option String := none
  assigneeId : JsAssignee := .undef
  priority : Option Int := none
  stateId : Option String := none
deriving Repr, DecidableEq

/-- The input object `updateIssue` sends to `client.updateIssue`
(the `IssueUpdateInput` interface); `assigneeId = some none` is an
explicit `null` (unassign) and `assigneeId = none` an absent key. -/
structure IssueUpdateInput where
  title : Option String := none
  description : Option String := none
  assigneeId : Option (Option String) := none
  priority : Option Int := none
  stateId : Option String := none
deriving Repr, DecidableEq

/-- Outcome of an embedded `updateIssue` call. -/
structure UpdateRun (I : Type) where
  run : MethodRun I
  input : IssueUpdateInput

/-- Input construction of `updateIssue` (source lines 616–630): copies
`title` and `stateId` only when truthy, `description` and `priority`
only when not `undefined`; translates `assigneeId` `'me'` to the cached
viewer's id (abstracted by `viewerId`), `null` or `''` to an explicit
`null` (unassign), any other truthy string through unchanged, and omits
the key when `undefined`.  The source checks `=== 'me'` first, then
`=== null || === ''`, then truthiness. -/
def buildUpdateInput (viewerId : String) (updates : UpdateArgs) : IssueUpdateInput :=
  let input0 : IssueUpdateInput := {}
  let input1 :=
    match updates.title with
    | some t => if t.isEmpty then input0 else { input0 with title := some t }
    | none => input0
  let input2 :=
    match updates.description with
    | some d => { input1 with description := some d }
    | none => input1
  let input3 :=
    match updates.priority with
    | some p => { input2 with priority := some p }
    | none => input2
  let input4 :=
    match updates.stateId with
    | some s => if s.isEmpty then input3 else { input3 with stateId := some s }
    | none => input3
  match updates.assigneeId with
  | .str s =>
    if s = "me" then { input4 with assigneeId := some (some viewerId) }
    else if s = "" then { input4 with assigneeId := some none }
    else { input4 with assigneeId := some (some s) }
  | .null => { input4 with assigneeId := some none }
  | .undef => input4

/-- `updateIssue` (source lines 603–644): not throttled; the
`client.updateIssue` call receives the built input and runs through
`withRetry`; an absent updated issue raises a 500 `AppError` inside the
retried function, and failures are wrapped by `handleLinearError`. -/
def updateIssue {I : Type} (viewerId : String)
    (remote : IssueUpdateInput → Nat → Except LinError (Option I))
    (issueId : String) (updates : UpdateArgs) : UpdateRun I :=
  let input := buildUpdateInput viewerId updates
  match withRetry (fun attempt =>
      match remote input attempt with
      | .ok none => .error ⟨"Failed to update issue", some 500, some ErrorCode.InternalError⟩
      | .ok (some issue) => .ok issue
      | .error e => .error e) "client.updateIssue" with
  | ⟨.ok issue, evs⟩ => ⟨⟨.ok issue, evs⟩, input⟩
  | ⟨.error e, evs⟩ =>
    ⟨⟨.error (handleLinearError e "Failed to update issue in Linear"
      [("issueId", issueId)]), evs⟩, input⟩

/-- The rate limiter's capacity: `pThrottle({ limit: 10, ... })`. -/
def throttleLimit : Nat := 10

/-- The rate limiter's window: `pThrottle({ ..., interval: 1000 })`. -/
def throttleInterval : Nat := 1000

/-- Fuel-carrying recursion for the rate-limiter admission times; the
fuel only drives termination and is irrelevant once it is at least the
operation index (see `tsAux_stable`). -/
def tsAux (a : Nat → Nat) : Nat → Nat → Nat
  | 0, n => a n
  | fuel + 1, n =>
    if n < throttleLimit then a n
    else max (a n) (tsAux a fuel (n - throttleLimit) + throttleInterval)

/-- Modelled from the spec: the admission policy of the rate limiter
(the `p-throttle` library wrapped by `throttle`, an external dependency
whose implementation is not part of this repository).  Per §4.2 the
limiter is a sliding-window policy with capacity `N = 10` per window
`W = 1000` ms that only delays and never rejects: given nondecreasing
arrival times `a`, the `n`-th wrapped operation starts at its arrival
time unless that would put more than `N` starts inside a window, i.e. it
starts no earlier than `W` ms after the start of operation `n - N`. -/
def throttleStarts (a : Nat → Nat) (n : Nat) : Nat :=
  tsAux a n n

theorem tsAux_stable (a : Nat → Nat) :
    ∀ f₁ f₂ n, n ≤ f₁ → n ≤ f₂ → tsAux a f₁ n = tsAux a f₂ n := by
  intro f₁
  induction f₁ using Nat.strong_induction_on with
  | _ f₁ ih =>
    intro f₂ n h₁ h₂
    match f₁, f₂ with
    | 0, 0 => rfl
    | 0, f₂ + 1 =>
      interval_cases n
      simp [tsAux, throttleLimit]
    | f₁ + 1, 0 =>
      interval_cases n
      simp [tsAux, throttleLimit]
    | f₁ + 1, f₂ + 1 =>
      simp only [tsAux]
      by_cases hn : n < throttleLimit
      · simp [hn]
      · simp only [hn, if_false]
        have hl : 0 < throttleLimit := by simp [throttleLimit]
        have := ih f₁ (by omega) f₂ (n - throttleLimit) (by omega) (by omega)
        rw [this]

/-- Unfolding equation for `throttleStarts`. -/
theorem throttleStarts_eq (a : Nat → Nat) (n : Nat) :
    throttleStarts a n =
      if n < throttleLimit then a n
      else max (a n) (throttleStarts a (n - throttleLimit) + throttleInterval) := by
  by_cases hn : n < throttleLimit
  · cases n with
    | zero => simp [throttleStarts, tsAux, hn]
    | succ m => simp [throttleStarts, tsAux, hn]
  · have hl : 0 < throttleLimit := by simp [throttleLimit]
    cases n with
    | zero => omega
    | succ m =>
      simp only [throttleStarts, tsAux, hn, if_false]
      rw [tsAux_stable a m (m + 1 - throttleLimit) (m + 1 - throttleLimit) (by omega) (le_refl _)]

/-- Each admitted start is at or after its arrival. -/
theorem throttleStarts_ge_arrival (a : Nat → Nat) (n : Nat) :
    a n ≤ throttleStarts a n := by
  rw [throttleStarts_eq]
  by_cases hn : n < throttleLimit
  · simp [hn]
  · simp [hn]

/-- Start `n + throttleLimit` is at least a full window after start `n`. -/
theorem throttleStarts_gap (a : Nat → Nat) (n : Nat) :
    throttleStarts a n + throttleInterval ≤ throttleStarts a (n + throttleLimit) := by
  rw [throttleStarts_eq a (n + throttleLimit)]
  have hl : 0 < throttleLimit := by simp [throttleLimit]
  have hn : ¬ n + throttleLimit < throttleLimit := by omega
  simp only [hn, if_false]
  have : n + throttleLimit - throttleLimit = n := by omega
  rw [this]
  exact le_max_right _ _

/-- Admission preserves the arrival order (FIFO starts are nondecreasing). -/
theorem throttleStarts_mono (a : Nat → Nat) (ha : Monotone a) :
    Monotone (throttleStarts a) := by
  have step : ∀ n, throttleStarts a n ≤ throttleStarts a (n + 1) := by
    intro n
    induction n using Nat.strong_induction_on with
    | _ n ih =>
      rw [throttleStarts_eq a n, throttleStarts_eq a (n + 1)]
      by_cases h1 : n + 1 < throttleLimit
      · have h0 : n < throttleLimit := by omega
        simp only [h0, h1, if_true]
        exact ha (Nat.le_succ n)
      · simp only [h1, if_false]
        by_cases h0 : n < throttleLimit
        · simp only [h0, if_true]
          exact le_trans (ha (Nat.le_succ n)) (le_max_left _ _)
        · simp only [h0, if_false]
          have hl : 0 < throttleLimit := by simp [throttleLimit]
          apply max_le_max (ha (Nat.le_succ n))
          have heq : n + 1 - throttleLimit = (n - throttleLimit) + 1 := by omega
          rw [heq]
          exact Nat.add_le_add_right (ih (n - throttleLimit) (by omega)) _
  exact monotone_nat_of_le_succ step

/-- In any window `[w, w + throttleInterval)` at most `throttleLimit`
of the first `N` admitted starts occur. -/
theorem throttleStarts_window (a : Nat → Nat) (ha : Monotone a) (w N : Nat) :
    ((Finset.range N).filter
      (fun k => w ≤ throttleStarts a k ∧ throttleStarts a k < w + throttleInterval)).card
      ≤ throttleLimit := by
  set S := (Finset.range N).filter
    (fun k => w ≤ throttleStarts a k ∧ throttleStarts a k < w + throttleInterval) with hS
  rcases Finset.eq_empty_or_nonempty S with he | hne
  · simp [he]
  · set n := S.min' hne with hn
    have hsub : S ⊆ Finset.Ico n (n + throttleLimit) := by
      intro k hk
      have hkn : n ≤ k := Finset.min'_le S k hk
      have hnS : n ∈ S := Finset.min'_mem S hne
      have hkP := (Finset.mem_filter.mp hk).2
      have hnP := (Finset.mem_filter.mp hnS).2
      rw [Finset.mem_Ico]
      refine ⟨hkn, ?_⟩
      by_contra hge
      push_neg at hge
      have h1 : throttleStarts a n + throttleInterval ≤ throttleStarts a (n + throttleLimit) :=
        throttleStarts_gap a n
      have h2 : throttleStarts a (n + throttleLimit) ≤ throttleStarts a k :=
        throttleStarts_mono a ha hge
      have : w + throttleInterval ≤ throttleStarts a k := by
        have := hnP.1
        omega
      omega
    calc S.card ≤ (Finset.Ico n (n + throttleLimit)).card := Finset.card_le_card hsub
    _ = throttleLimit := by rw [Nat.card_Ico]; omega

/-- A retry trace never contains a rate-limiter admission event. -/
theorem withRetryGo_no_throttle {A : Type} (fn : Nat → Except LinError A)
    (name : String) : ∀ remaining attempt,
    Ev.throttleStart ∉ (withRetryGo fn name attempt remaining).events := by
  intro remaining
  induction remaining with
  | zero =>
    intro attempt
    simp only [withRetryGo]
    cases fn attempt <;> simp
  | succ r ih =>
    intro attempt
    simp only [withRetryGo]
    cases fn attempt with
    | ok a => simp
    | error e =>
      by_cases hc : isClientError e
      · simp [hc]
      · simp only [hc, if_false]
        simpa using ih (attempt + 1)

/-- A retry trace makes between `1` and `remaining + 1` remote calls. -/
theorem withRetryGo_callCount {A : Type} (fn : Nat → Except LinError A)
    (name : String) : ∀ remaining attempt,
    1 ≤ callCount (withRetryGo fn name attempt remaining).events ∧
      callCount (withRetryGo fn name attempt remaining).events ≤ remaining + 1 := by
  intro remaining
  induction remaining with
  | zero =>
    intro attempt
    simp only [withRetryGo]
    cases fn attempt <;> simp [callCount]
  | succ r ih =>
    intro attempt
    simp only [withRetryGo]
    cases fn attempt with
    | ok a => simp [callCount]
    | error e =>
      by_cases hc : isClientError e
      · simp [hc, callCount]
      · simp only [hc, if_false]
        have := ih (attempt + 1)
        simp only [callCount, List.filter, List.length] at *
        omega

theorem searchIssuesFetch_request {I : Type}
    (remote : SearchRequest → Nat → Except LinError (List I))
    (query : String) (request : SearchRequest) :
    (searchIssuesFetch remote query request).request = some request := by
  unfold searchIssuesFetch
  rcases h : withRetry (remote request) "client.issues" with ⟨res, evs⟩
  cases res <;> simp [h]

theorem searchIssuesFetch_run_events {I : Type}
    (remote : SearchRequest → Nat → Except LinError (List I))
    (query : String) (request : SearchRequest) :
    (searchIssuesFetch remote query request).run.events
      = (withRetry (remote request) "client.issues").events := by
  unfold searchIssuesFetch
  rcases h : withRetry (remote request) "client.issues" with ⟨res, evs⟩
  cases res <;> simp [h]

theorem searchIssues_me_error {I : Type} (viewer : Except LinError User)
    (remote : SearchRequest → Nat → Except LinError (List I))
    (query : String) (teamId status : Option String) (limit : Nat) (e : LinError)
    (hv : viewer = .error e) :
    searchIssues (I := I) viewer remote query teamId status (some "me") limit
      = ⟨⟨.error (handleLinearError e "Failed to search issues in Linear"
          [("query", query)]), []⟩, none⟩ := by
  subst hv
  simp [searchIssues, truthy, (by decide : "me".isEmpty = false)]

theorem searchIssues_me_ok {I : Type} (viewer : Except LinError User)
    (remote : SearchRequest → Nat → Except LinError (List I))
    (query : String) (teamId status : Option String) (limit : Nat) (v : User)
    (hv : viewer = .ok v) :
    searchIssues (I := I) viewer remote query teamId status (some "me") limit
      = searchIssuesFetch remote query
          (buildSearchRequest v.id query teamId status (some "me") limit) := by
  subst hv
  simp [searchIssues, truthy, (by decide : "me".isEmpty = false)]

theorem searchIssues_not_me {I : Type} (viewer : Except LinError User)
    (remote : SearchRequest → Nat → Except LinError (List I))
    (query : String) (teamId status assigneeId : Option String) (limit : Nat)
    (hne : assigneeId ≠ some "me") :
    searchIssues (I := I) viewer remote query teamId status assigneeId limit
      = searchIssuesFetch remote query
          (buildSearchRequest "" query teamId status assigneeId limit) := by
  have hb : (assigneeId == some "me") = false := by
    simpa using hne
  simp [searchIssues, hb]

theorem buildSearchRequest_first (viewerId query : String)
    (teamId status assigneeId : Option String) (limit : Nat) :
    (buildSearchRequest viewerId query teamId status assigneeId limit).first = min limit 250 := by
  simp [buildSearchRequest]

theorem createIssue_input {I : Type} (viewerId : String)
    (remote : IssueCreateInput → Nat → Except LinError (Option I))
    (teamId title : String) (description : Option String)
    (assigneeId : Option String) (priority : Option Int) :
    (createIssue (I := I) viewerId remote teamId title description assigneeId priority).input
      = buildCreateInput viewerId teamId title description assigneeId priority := by
  unfold createIssue
  rcases h : withRetry (fun attempt =>
      match remote (buildCreateInput viewerId teamId title description assigneeId priority) attempt with
      | .ok none => .error ⟨"Failed to create issue", some 500, some ErrorCode.InternalError⟩
      | .ok (some issue) => .ok issue
      | .error e => .error e) "client.createIssue" with ⟨res, evs⟩
  cases res <;> simp [h]

theorem updateIssue_input {I : Type} (viewerId : String)
    (remote : IssueUpdateInput → Nat → Except LinError (Option I))
    (issueId : String) (updates : UpdateArgs) :
    (updateIssue (I := I) viewerId remote issueId updates).input
      = buildUpdateInput viewerId updates := by
  unfold updateIssue
  rcases h : withRetry (fun attempt =>
      match remote (buildUpdateInput viewerId updates) attempt with
      | .ok none => .error ⟨"Failed to update issue", some 500, some ErrorCode.InternalError⟩
      | .ok (some issue) => .ok issue
      | .error e => .error e) "client.updateIssue" with ⟨res, evs⟩
  cases res <;> simp [h]

theorem buildUpdateInput_assigneeId (viewerId : String) (u : UpdateArgs) :
    (buildUpdateInput viewerId u).assigneeId =
      match u.assigneeId with
      | .str s =>
        if s = "me" then some (some viewerId)
        else if s = "" then some none
        else some (some s)
      | .null => some none
      | .undef => none := by
  rcases u with ⟨t, d, asg, p, st⟩
  cases t <;> cases d <;> cases p <;> cases st <;> cases asg <;>
    simp [buildUpdateInput, apply_ite IssueUpdateInput.assigneeId]

theorem buildUpdateInput_title (viewerId : String) (u : UpdateArgs) :
    (buildUpdateInput viewerId u).title =
      match u.title with
      | some t => if t.isEmpty then none else some t
      | none => none := by
  rcases u with ⟨t, d, asg, p, st⟩
  cases t <;> cases d <;> cases p <;> cases st <;> cases asg <;>
    simp [buildUpdateInput, apply_ite IssueUpdateInput.title]

theorem buildUpdateInput_stateId (viewerId : String) (u : UpdateArgs) :
    (buildUpdateInput viewerId u).stateId =
      match u.stateId with
      | some s => if s.isEmpty then none else some s
      | none => none := by
  rcases u with ⟨t, d, asg, p, st⟩
  cases t <;> cases d <;> cases p <;> cases st <;> cases asg <;>
    simp [buildUpdateInput, apply_ite IssueUpdateInput.stateId]

theorem buildUpdateInput_description (viewerId : String) (u : UpdateArgs) :
    (buildUpdateInput viewerId u).description = u.description := by
  rcases u with ⟨t, d, asg, p, st⟩
  cases t <;> cases d <;> cases p <;> cases st <;> cases asg <;>
    simp [buildUpdateInput, apply_ite IssueUpdateInput.description]

theorem buildUpdateInput_priority (viewerId : String) (u : UpdateArgs) :
    (buildUpdateInput viewerId u).priority = u.priority := by
  rcases u with ⟨t, d, asg, p, st⟩
  cases t <;> cases d <;> cases p <;> cases st <;> cases asg <;>
    simp [buildUpdateInput, apply_ite IssueUpdateInput.priority]

/-- C1: for a `getIssue` call whose remote lookup succeeds but returns an
absent entity, the source constructs
`AppError('Issue not found: …', 404, InvalidRequest)` inside its `try`
block, but its own `catch` hands that error to `handleLinearError`, which
re-wraps it as a 500 `ErrorCode.InternalError` `AppError`.  The error
surfaced to the caller therefore carries a 500 internal-error
classification, not the 404-equivalent client-error classification the
specification states; this contradicts the intent visible in the
source's own 404 construction (a code bug). -/
theorem getIssue_absent_entity_surfaces_internal_error :
    (getIssue (I := Unit) "missing" (fun _ => .ok none)).result =
      .error
        { message := "Failed to fetch issue from Linear (issueId: missing): Issue not found: missing",
          statusCode := some 500, code := some ErrorCode.InternalError } := by
  rfl

theorem searchIssues_request_cases {I : Type} (viewer : Except LinError User)
    (remote : SearchRequest → Nat → Except LinError (List I))
    (query : String) (teamId status assigneeId : Option String) (limit : Nat) :
    (searchIssues (I := I) viewer remote query teamId status assigneeId limit).request
        = none ∨
      ∃ vid, (searchIssues (I := I) viewer remote query teamId status assigneeId
        limit).request = some (buildSearchRequest vid query teamId status assigneeId limit) := by
  by_cases hme : assigneeId = some "me"
  · subst hme
    cases hv : viewer with
    | error e =>
      left
      rw [searchIssues_me_error _ _ _ _ _ _ _ rfl]
    | ok v =>
      right
      exact ⟨v.id, by rw [searchIssues_me_ok _ _ _ _ _ _ _ rfl, searchIssuesFetch_request]⟩
  · right
    exact ⟨"", by rw [searchIssues_not_me _ _ _ _ _ _ _ hme, searchIssuesFetch_request]⟩

/-- C6: whenever a `searchIssues` call issues a request to the remote
capability, the count requested equals `min(limit, 250)`: with
`limit = 1000` exactly 250 is requested and with `limit` absent
(defaulted) exactly 50 is requested; a request is always issued unless
the `'me'` sentinel's cached-viewer resolution throws first. -/
theorem searchIssues_limit_cap :
    ∀ (I : Type) (viewer : Except LinError User)
      (remote : SearchRequest → Nat → Except LinError (List I))
      (query : String) (teamId status assigneeId : Option String),
      (∀ limit r, (searchIssues (I := I) viewer remote query teamId status assigneeId
        limit).request = some r → r.first = min limit 250) ∧
      (∀ r, (searchIssues (I := I) viewer remote query teamId status assigneeId
        1000).request = some r → r.first = 250) ∧
      (∀ r, (searchIssues (I := I) viewer remote query teamId status
        assigneeId).request = some r → r.first = 50) ∧
      (assigneeId ≠ some "me" → ∀ limit,
        (searchIssues (I := I) viewer remote query teamId status assigneeId limit).request
          = some (buildSearchRequest "" query teamId status assigneeId limit)) ∧
      (∀ v, viewer = .ok v → ∀ limit,
        ((searchIssues (I := I) viewer remote query teamId status assigneeId
          limit).request).isSome = true) := by
  intro I viewer remote query teamId status assigneeId
  have hfirst : ∀ limit r,
      (searchIssues (I := I) viewer remote query teamId status assigneeId limit).request
        = some r → r.first = min limit 250 := by
    intro limit r hr
    rcases searchIssues_request_cases viewer remote query teamId status assigneeId limit with
      hnone | ⟨vid, hsome⟩
    · rw [hnone] at hr
      exact absurd hr (by simp)
    · rw [hsome] at hr
      have : r = buildSearchRequest vid query teamId status assigneeId limit :=
        (Option.some.inj hr).symm
      rw [this, buildSearchRequest_first]
  refine ⟨hfirst, ?_, ?_, ?_, ?_⟩
  · intro r hr
    have := hfirst 1000 r hr
    simpa using this
  · intro r hr
    have := hfirst 50 r hr
    simpa using this
  · intro hne limit
    rw [searchIssues_not_me _ _ _ _ _ _ _ hne, searchIssuesFetch_request]
  · intro v hv limit
    by_cases hme : assigneeId = some "me"
    · subst hme
      rw [searchIssues_me_ok _ _ _ _ _ _ _ hv, searchIssuesFetch_request]
      rfl
    · rw [searchIssues_not_me _ _ _ _ _ _ _ hme, searchIssuesFetch_request]
      rfl

/-- C6 witness: with `limit = 1000` and a non-sentinel assignee the
issued request carries `first = 250`. -/
theorem searchIssues_limit_cap_witness :
    (buildSearchRequest "" "q" none none none 1000).first = 250 :=
  (searchIssues_limit_cap Unit (.ok ⟨"u1", "Alice"⟩) (fun _ _ => .ok []) "q" none none
    none).2.1 (buildSearchRequest "" "q" none none none 1000) rfl

/-- C7: for every `updateIssue` call, an empty-string or `null`
`updates.assigneeId` is sent to the remote capability as an explicit
`null` (unassign), the `'me'` sentinel resolves to the cached viewer's
id, any other non-empty assignee id passes through unchanged, and an
absent `assigneeId` sends no `assigneeId` key at all. -/
theorem updateIssue_assignee_translation :
    ∀ (I : Type) (viewerId : String)
      (remote : IssueUpdateInput → Nat → Except LinError (Option I))
      (issueId : String) (u : UpdateArgs),
      (u.assigneeId = .str "" →
        (updateIssue (I := I) viewerId remote issueId u).input.assigneeId = some none) ∧
      (u.assigneeId = .null →
        (updateIssue (I := I) viewerId remote issueId u).input.assigneeId = some none) ∧
      (u.assigneeId = .str "me" →
        (updateIssue (I := I) viewerId remote issueId u).input.assigneeId
          = some (some viewerId)) ∧
      (∀ s, s ≠ "" → s ≠ "me" → u.assigneeId = .str s →
        (updateIssue (I := I) viewerId remote issueId u).input.assigneeId
          = some (some s)) ∧
      (u.assigneeId = .undef →
        (updateIssue (I := I) viewerId remote issueId u).input.assigneeId = none) := by
  intro I viewerId remote issueId u
  rw [updateIssue_input]
  refine ⟨fun h => ?_, fun h => ?_, fun h => ?_, fun s hne hme h => ?_, fun h => ?_⟩ <;>
    rw [buildUpdateInput_assigneeId, h]
  · simp
  · simp
  · simp [hme, hne]

/-- C7 witness: a concrete non-empty, non-sentinel assignee id passes
through unchanged. -/
theorem updateIssue_assignee_translation_witness :
    (updateIssue (I := Unit) "viewer1" (fun _ _ => .ok none) "ISS-1"
      { assigneeId := .str "user-42" }).input.assigneeId = some (some "user-42") :=
  (updateIssue_assignee_translation Unit "viewer1" (fun _ _ => .ok none) "ISS-1"
      { assigneeId := .str "user-42" }).2.2.2.1 "user-42" (by decide) (by decide) rfl

/-- C8: `createIssue` with only `teamId` and `title` sends exactly
`{teamId, title}` with no other keys; each optional field is omitted
entirely when absent rather than sent as `null`, and the `'me'` sentinel
resolves to the cached viewer's id. -/
theorem createIssue_minimal_input :
    ∀ (I : Type) (viewerId : String)
      (remote : IssueCreateInput → Nat → Except LinError (Option I))
      (teamId title : String),
      ((createIssue (I := I) viewerId remote teamId title none none none).input
        = { teamId := teamId, title := title, description := none,
            assigneeId := none, priority := none }) ∧
      (∀ description priority,
        (createIssue (I := I) viewerId remote teamId title description
            (some "me") priority).input.assigneeId = some (some viewerId)) ∧
      (∀ assigneeId priority,
        (createIssue (I := I) viewerId remote teamId title none assigneeId
            priority).input.description = none) ∧
      (∀ description assigneeId,
        (createIssue (I := I) viewerId remote teamId title description
            assigneeId none).input.priority = none) ∧
      (∀ description priority,
        (createIssue (I := I) viewerId remote teamId title description none
            priority).input.assigneeId = none) := by
  intro I viewerId remote teamId title
  refine ⟨?_, fun d p => ?_, fun a p => ?_, fun d a => ?_, fun d p => ?_⟩ <;>
    rw [createIssue_input]
  · simp [buildCreateInput, truthy]
  · cases d <;> cases p <;>
      simp [buildCreateInput, truthy, apply_ite IssueCreateInput.assigneeId]
  · cases a <;> cases p <;>
      simp [buildCreateInput, truthy, apply_ite IssueCreateInput.description,
        apply_ite IssueCreateInput.assigneeId]
  · cases d <;> cases a <;>
      simp [buildCreateInput, truthy, apply_ite IssueCreateInput.priority,
        apply_ite IssueCreateInput.assigneeId]
  · cases d <;> cases p <;>
      simp [buildCreateInput, truthy, apply_ite IssueCreateInput.assigneeId]

/-- C10 counterexample: priority `0` is falsy in JavaScript but not
`undefined`; `updateIssue` forwards it, so `priority` — like
`description` — is tested against `undefined` rather than falsiness,
refuting the claim that only `description` is. -/
theorem updateIssue_priority_zero_forwarded :
    (updateIssue (I := Unit) "viewer1" (fun _ _ => .ok none) "ISS-1"
      { priority := some 0 }).input.priority = some 0 := by
  rfl

/-- C10 (amended): for every `updateIssue` call an empty-string `title`
and an empty-string `stateId` are silently omitted from the input sent to
the remote capability, while an empty-string `description` is forwarded;
`description` and `priority` (not `description` alone) are the fields
tested against `undefined` rather than falsiness, so `priority 0` is
forwarded as well. -/
theorem updateIssue_field_filtering :
    ∀ (I : Type) (viewerId : String)
      (remote : IssueUpdateInput → Nat → Except LinError (Option I))
      (issueId : String) (u : UpdateArgs),
      (u.title = some "" →
        (updateIssue (I := I) viewerId remote issueId u).input.title = none) ∧
      (u.stateId = some "" →
        (updateIssue (I := I) viewerId remote issueId u).input.stateId = none) ∧
      ((updateIssue (I := I) viewerId remote issueId u).input.description
        = u.description) ∧
      ((updateIssue (I := I) viewerId remote issueId u).input.priority
        = u.priority) := by
  intro I viewerId remote issueId u
  rw [updateIssue_input]
  refine ⟨fun h => ?_, fun h => ?_, ?_, ?_⟩
  · rw [buildUpdateInput_title, h]; rfl
  · rw [buildUpdateInput_stateId, h]; rfl
  · exact buildUpdateInput_description viewerId u
  · exact buildUpdateInput_priority viewerId u

/-- C10 witness: empty-string `title` is dropped while empty-string
`description` survives for a concrete update. -/
theorem updateIssue_field_filtering_witness :
    (updateIssue (I := Unit) "viewer1" (fun _ _ => .ok none) "ISS-1"
      { title := some "", description := some "" }).input.title = none ∧
    (updateIssue (I := Unit) "viewer1" (fun _ _ => .ok none) "ISS-1"
      { title := some "", description := some "" }).input.description = some "" :=
  ⟨(updateIssue_field_filtering Unit "viewer1" (fun _ _ => .ok none) "ISS-1"
      { title := some "", description := some "" }).1 rfl,
   (updateIssue_field_filtering Unit "viewer1" (fun _ _ => .ok none) "ISS-1"
      { title := some "", description := some "" }).2.2.1⟩

theorem withRetryGo_success {A : Type} (fn : Nat → Except LinError A) (name : String) :
    ∀ (k attempt remaining : Nat) (a : A), k ≤ remaining → fn (attempt + k) = .ok a →
      (∀ i, i < k → ∃ e, fn (attempt + i) = .error e ∧ isClientError e = false) →
      (withRetryGo fn name attempt remaining).result = .ok a ∧
        callCount (withRetryGo fn name attempt remaining).events = k + 1 := by
  intro k
  induction k with
  | zero =>
    intro attempt remaining a _ hok _
    rw [Nat.add_zero] at hok
    cases remaining <;> simp [withRetryGo, hok, callCount]
  | succ k ih =>
    intro attempt remaining a hk hok herr
    match remaining, hk with
    | r + 1, _ =>
      obtain ⟨e, he, hce⟩ := herr 0 (Nat.succ_pos k)
      rw [Nat.add_zero] at he
      have hok' : fn (attempt + 1 + k) = .ok a := by
        rw [show attempt + 1 + k = attempt + (k + 1) by omega]; exact hok
      have herr' : ∀ i, i < k → ∃ e, fn (attempt + 1 + i) = .error e ∧ isClientError e = false := by
        intro i hi
        obtain ⟨e', he', hce'⟩ := herr (i + 1) (by omega)
        exact ⟨e', by rw [show attempt + 1 + i = attempt + (i + 1) by omega]; exact he', hce'⟩
      have := ih (attempt + 1) r a (by omega) hok' herr'
      simp only [withRetryGo, he, hce, Bool.false_eq_true, if_false]
      refine ⟨this.1, ?_⟩
      simp only [callCount, List.filter, List.length] at this ⊢
      omega

/-- C2: the retry executor invokes an operation whose first attempt
throws a client-classified error (message containing 400 or 404) exactly
once, re-throwing that error with no back-off delay; an operation
throwing any other error is re-invoked until success or until
`maxRetries + 1 = 4` total attempts, with back-off delays
`min(1000·2^attempt, 10000)` = 1000, 2000, 4000 ms between attempts, and
the error finally surfaced is the one from the last attempt. -/
theorem withRetry_policy :
    (∀ (A : Type) (fn : Nat → Except LinError A) (name : String) (e : LinError),
      fn 0 = .error e → isClientError e = true →
      (withRetry fn name).result = .error e ∧
        callCount (withRetry fn name).events = 1 ∧
        delaysOf (withRetry fn name).events = []) ∧
    (∀ (A : Type) (fn : Nat → Except LinError A) (name : String) (es : Nat → LinError),
      (∀ i, i ≤ 3 → fn i = .error (es i) ∧ isClientError (es i) = false) →
      (withRetry fn name).result = .error (es 3) ∧
        callCount (withRetry fn name).events = 4 ∧
        delaysOf (withRetry fn name).events = [1000, 2000, 4000]) ∧
    (∀ (A : Type) (fn : Nat → Except LinError A) (name : String) (k : Nat) (a : A),
      k ≤ 3 → fn k = .ok a →
      (∀ i, i < k → ∃ e, fn i = .error e ∧ isClientError e = false) →
      (withRetry fn name).result = .ok a ∧
        callCount (withRetry fn name).events = k + 1) := by
  refine ⟨?_, ?_, ?_⟩
  · intro A fn name e h0 hc
    simp [withRetry, RETRY_CONFIG, withRetryGo, h0, hc, callCount, delaysOf]
  · intro A fn name es h
    have h0 := h 0 (by norm_num)
    have h1 := h 1 (by norm_num)
    have h2 := h 2 (by norm_num)
    have h3 := h 3 (by norm_num)
    simp [withRetry, RETRY_CONFIG, withRetryGo, h0.1, h0.2, h1.1, h1.2, h2.1, h2.2,
      h3.1, h3.2, callCount, delaysOf]
  · intro A fn name k a hk hok herr
    have := withRetryGo_success fn name k 0 RETRY_CONFIG.maxRetries a
      (by simpa [RETRY_CONFIG] using hk) (by simpa using hok) (by simpa using herr)
    exact ⟨this.1, this.2⟩

/-- C2 witness: concrete behaviours exercising the client-error
fail-fast path, the exhaustion path and the success-after-retries path. -/
theorem withRetry_policy_witness :
    ((withRetry (fun _ => (.error ⟨"HTTP 404: not found", none, none⟩ : Except LinError Unit))
        "op").result = .error ⟨"HTTP 404: not found", none, none⟩ ∧
      callCount (withRetry (fun _ =>
        (.error ⟨"HTTP 404: not found", none, none⟩ : Except LinError Unit)) "op").events = 1 ∧
      delaysOf (withRetry (fun _ =>
        (.error ⟨"HTTP 404: not found", none, none⟩ : Except LinError Unit)) "op").events = []) ∧
    ((withRetry (fun _ => (.error ⟨"ECONNRESET", none, none⟩ : Except LinError Unit))
        "op").result = .error ⟨"ECONNRESET", none, none⟩ ∧
      callCount (withRetry (fun _ =>
        (.error ⟨"ECONNRESET", none, none⟩ : Except LinError Unit)) "op").events = 4 ∧
      delaysOf (withRetry (fun _ =>
        (.error ⟨"ECONNRESET", none, none⟩ : Except LinError Unit)) "op").events
        = [1000, 2000, 4000]) ∧
    ((withRetry (fun i => if i = 0 then .error ⟨"socket closed", none, none⟩ else .ok 7)
        "op").result = .ok 7 ∧
      callCount (withRetry (fun i =>
        if i = 0 then .error ⟨"socket closed", none, none⟩ else .ok 7) "op").events = 2) := by
  refine ⟨withRetry_policy.1 Unit _ "op" _ rfl (by decide), ?_, ?_⟩
  · exact withRetry_policy.2.1 Unit _ "op" (fun _ => ⟨"ECONNRESET", none, none⟩)
      (fun i _ => ⟨rfl, (by decide : isClientError ⟨"ECONNRESET", none, none⟩ = false)⟩)
  · refine withRetry_policy.2.2 Nat _ "op" 1 7 (by norm_num) rfl ?_
    intro i hi
    interval_cases i
    exact ⟨⟨"socket closed", none, none⟩, rfl, by decide⟩

theorem withRetry_first_ok {A : Type} (fn : Nat → Except LinError A) (name : String)
    (a : A) (h : fn 0 = .ok a) : withRetry fn name = ⟨.ok a, [.remoteCall name]⟩ := by
  simp [withRetry, RETRY_CONFIG, withRetryGo, h]

/-- C9: `healthCheck` never throws, whatever the remote capability does:
its outcome is always `.ok`; when the retried viewer fetch succeeds it
reports a healthy status with the user's id and name, and when it fails
it reports an unhealthy status carrying the error message instead of
propagating the error. -/
theorem healthCheck_never_throws :
    ∀ remote : Nat → Except LinError User,
      (∃ h, (healthCheck remote).result = .ok h) ∧
      (∀ v, (withRetry remote "client.viewer").result = .ok v →
        (healthCheck remote).result = .ok
          { status := "healthy", apiConnected := true,
            userId := some v.id, userName := some v.name, error := none }) ∧
      (∀ e, (withRetry remote "client.viewer").result = .error e →
        (healthCheck remote).result = .ok
          { status := "unhealthy", apiConnected := false,
            userId := none, userName := none, error := some e.message }) := by
  intro remote
  unfold healthCheck
  rcases h : withRetry remote "client.viewer" with ⟨res, evs⟩
  cases res <;> simp [h, throttleWrap]

/-- C9 witness: a concrete failing and a concrete succeeding remote. -/
theorem healthCheck_never_throws_witness :
    (healthCheck (fun _ => .error ⟨"socket hang up", none, none⟩)).result = .ok
      { status := "unhealthy", apiConnected := false,
        userId := none, userName := none, error := some "socket hang up" } ∧
    (healthCheck (fun _ => .ok ⟨"u1", "Alice"⟩)).result = .ok
      { status := "healthy", apiConnected := true,
        userId := some "u1", userName := some "Alice", error := none } :=
  ⟨(healthCheck_never_throws (fun _ => .error ⟨"socket hang up", none, none⟩)).2.2
      ⟨"socket hang up", none, none⟩ rfl,
   (healthCheck_never_throws (fun _ => .ok ⟨"u1", "Alice"⟩)).2.1 ⟨"u1", "Alice"⟩ rfl⟩

theorem createIssue_run_events {I : Type} (viewerId : String)
    (remote : IssueCreateInput → Nat → Except LinError (Option I))
    (teamId title : String) (description : Option String)
    (assigneeId : Option String) (priority : Option Int) :
    (createIssue (I := I) viewerId remote teamId title description assigneeId
        priority).run.events
      = (withRetry (fun attempt =>
          match remote (buildCreateInput viewerId teamId title description assigneeId priority)
              attempt with
          | .ok none => .error ⟨"Failed to create issue", some 500, some ErrorCode.InternalError⟩
          | .ok (some issue) => .ok issue
          | .error e => .error e) "client.createIssue").events := by
  unfold createIssue
  rcases h : withRetry (fun attempt =>
      match remote (buildCreateInput viewerId teamId title description assigneeId priority)
          attempt with
      | .ok none => .error ⟨"Failed to create issue", some 500, some ErrorCode.InternalError⟩
      | .ok (some issue) => .ok issue
      | .error e => .error e) "client.createIssue" with ⟨res, evs⟩
  cases res <;> simp [h]

theorem updateIssue_run_events {I : Type} (viewerId : String)
    (remote : IssueUpdateInput → Nat → Except LinError (Option I))
    (issueId : String) (updates : UpdateArgs) :
    (updateIssue (I := I) viewerId remote issueId updates).run.events
      = (withRetry (fun attempt =>
          match remote (buildUpdateInput viewerId updates) attempt with
          | .ok none => .error ⟨"Failed to update issue", some 500, some ErrorCode.InternalError⟩
          | .ok (some issue) => .ok issue
          | .error e => .error e) "client.updateIssue").events := by
  unfold updateIssue
  rcases h : withRetry (fun attempt =>
      match remote (buildUpdateInput viewerId updates) attempt with
      | .ok none => .error ⟨"Failed to update issue", some 500, some ErrorCode.InternalError⟩
      | .ok (some issue) => .ok issue
      | .error e => .error e) "client.updateIssue" with ⟨res, evs⟩
  cases res <;> simp [h]

theorem searchIssuesFetch_props {I : Type}
    (remote : SearchRequest → Nat → Except LinError (List I))
    (query : String) (request : SearchRequest) :
    Ev.throttleStart ∉ (searchIssuesFetch remote query request).run.events ∧
    1 ≤ callCount (searchIssuesFetch remote query request).run.events ∧
    callCount (searchIssuesFetch remote query request).run.events ≤ 4 ∧
    (∀ issues, remote request 0 = .ok issues →
      callCount (searchIssuesFetch remote query request).run.events = 1) := by
  rw [searchIssuesFetch_run_events]
  have hb := withRetryGo_callCount (remote request) "client.issues" RETRY_CONFIG.maxRetries 0
  refine ⟨withRetryGo_no_throttle _ _ _ _, hb.1, ?_, ?_⟩
  · simpa [RETRY_CONFIG] using hb.2
  · intro issues hok
    rw [withRetry_first_ok _ _ issues hok]
    rfl

/-- C5 counterexample: with a remote behaviour that throws a transient
error on every attempt, a single `searchIssues` call starts the remote
issue-listing call four times — `searchIssues` runs it through the retry
executor, so it is not a direct passthrough invoked at most once. -/
theorem searchIssues_retried_four_times :
    callCount ((searchIssues (I := Unit) (.ok ⟨"u1", "Alice"⟩)
      (fun _ _ => .error ⟨"ECONNRESET", none, none⟩) "q" none none none).run.events) = 4 := by
  rfl

/-- C5 (amended): `searchIssues` applies no rate limiter, but it does run
the remote issue-listing call through the retry executor: per call the
issue-listing call is started at most 4 times — at least once whenever
the assignee filter is not the `'me'` sentinel or the cached-viewer
resolution succeeds, exactly once when the first attempt succeeds, and
zero times exactly when resolving `'me'` via the cached viewer throws
before the listing call — with no throttling admission in its trace. -/
theorem searchIssues_no_throttle_retry_bounds :
    ∀ (I : Type) (viewer : Except LinError User)
      (remote : SearchRequest → Nat → Except LinError (List I))
      (query : String) (teamId status assigneeId : Option String) (limit : Nat),
      Ev.throttleStart ∉ (searchIssues (I := I) viewer remote query teamId
        status assigneeId limit).run.events ∧
      callCount (searchIssues (I := I) viewer remote query teamId
        status assigneeId limit).run.events ≤ 4 ∧
      (assigneeId ≠ some "me" →
        1 ≤ callCount (searchIssues (I := I) viewer remote query teamId
          status assigneeId limit).run.events) ∧
      (∀ v, viewer = .ok v →
        1 ≤ callCount (searchIssues (I := I) viewer remote query teamId
          status assigneeId limit).run.events) ∧
      (∀ r issues, (searchIssues (I := I) viewer remote query teamId
          status assigneeId limit).request = some r → remote r 0 = .ok issues →
        callCount (searchIssues (I := I) viewer remote query teamId
          status assigneeId limit).run.events = 1) ∧
      (∀ e, assigneeId = some "me" → viewer = .error e →
        callCount (searchIssues (I := I) viewer remote query teamId
          status assigneeId limit).run.events = 0 ∧
        (searchIssues (I := I) viewer remote query teamId
          status assigneeId limit).run.result
          = .error (handleLinearError e "Failed to search issues in Linear"
              [("query", query)])) := by
  intro I viewer remote query teamId status assigneeId limit
  by_cases hme : assigneeId = some "me"
  · subst hme
    cases hv : viewer with
    | error e =>
      rw [searchIssues_me_error _ _ _ _ _ _ _ rfl]
      refine ⟨by simp, by simp [callCount], fun h => absurd rfl h, ?_, ?_, ?_⟩
      · intro v hv'
        exact absurd hv' (by simp)
      · intro r issues hr
        exact absurd hr (by simp)
      · intro e' _ hv'
        have he : e' = e := by
          have := Except.error.inj hv'
          exact this.symm
        subst he
        exact ⟨rfl, rfl⟩
    | ok v =>
      rw [searchIssues_me_ok _ _ _ _ _ _ _ rfl]
      have hp := searchIssuesFetch_props remote query
        (buildSearchRequest v.id query teamId status (some "me") limit)
      refine ⟨hp.1, hp.2.2.1, fun h => absurd rfl h, fun _ _ => hp.2.1, ?_, ?_⟩
      · intro r issues hr hok
        rw [searchIssuesFetch_request] at hr
        have : buildSearchRequest v.id query teamId status (some "me") limit = r :=
          Option.some.inj hr
        subst this
        exact hp.2.2.2 issues hok
      · intro e' _ hv'
        exact absurd hv' (by simp)
  · rw [searchIssues_not_me _ _ _ _ _ _ _ hme]
    have hp := searchIssuesFetch_props remote query
      (buildSearchRequest "" query teamId status assigneeId limit)
    refine ⟨hp.1, hp.2.2.1, fun _ => hp.2.1, fun _ _ => hp.2.1, ?_, ?_⟩
    · intro r issues hr hok
      rw [searchIssuesFetch_request] at hr
      have : buildSearchRequest "" query teamId status assigneeId limit = r :=
        Option.some.inj hr
      subst this
      exact hp.2.2.2 issues hok
    · intro e' hme' _
      exact absurd hme' hme

/-- C5 witness: a first-attempt success starts the issue-listing call
exactly once, and a throwing `'me'` viewer resolution starts it zero
times. -/
theorem searchIssues_no_throttle_retry_bounds_witness :
    callCount ((searchIssues (I := Unit) (.ok ⟨"u1", "Alice"⟩)
      (fun _ _ => .ok []) "q" none none none).run.events) = 1 ∧
    callCount ((searchIssues (I := Unit) (.error ⟨"getaddrinfo ENOTFOUND", none, none⟩)
      (fun _ _ => .ok []) "q" none none (some "me")).run.events) = 0 :=
  ⟨(searchIssues_no_throttle_retry_bounds Unit (.ok ⟨"u1", "Alice"⟩) (fun _ _ => .ok [])
      "q" none none none 50).2.2.2.2.1
      (buildSearchRequest "" "q" none none none 50) [] rfl rfl,
   ((searchIssues_no_throttle_retry_bounds Unit (.error ⟨"getaddrinfo ENOTFOUND", none, none⟩)
      (fun _ _ => .ok []) "q" none none (some "me") 50).2.2.2.2.2
      ⟨"getaddrinfo ENOTFOUND", none, none⟩ rfl rfl).1⟩

/-- C4 counterexample: the issue-search operation is not wrapped by the
rate limiter — a concrete `searchIssues` trace contains no rate-limiter
admission event — refuting the claim that the limiter wraps issue
search. -/
theorem searchIssues_not_rate_limited :
    Ev.throttleStart ∉ (searchIssues (I := Unit) (.ok ⟨"u1", "Alice"⟩)
      (fun _ _ => .ok []) "bug" none none none).run.events := by
  decide

/-- C4 (amended): the rate limiter (capacity 10 starts per rolling
1000 ms window) wraps exactly the operations for team listing,
get-single-issue, workflow-state listing, add-comment and health-check —
not issue search, and not create-issue or update-issue; and under the
spec-modelled sliding-window admission policy, no more than 10 starts of
wrapped operations occur within any 1000 ms window. -/
theorem rate_limiter_coverage_and_window :
    (∀ (T : Type) (st : Option (CacheEntry T)) (now : Nat)
        (remote : Nat → Except LinError T),
      (getTeams st now remote).1.events.head? = some Ev.throttleStart) ∧
    (∀ (I : Type) (issueId : String) (remote : Nat → Except LinError (Option I)),
      (getIssue issueId remote).events.head? = some Ev.throttleStart) ∧
    (∀ (S : Type) (cacheMap : List (String × CacheEntry S)) (now : Nat)
        (teamId : String) (remote : Nat → Except LinError (Option S)),
      (getWorkflowStates cacheMap now teamId remote).1.events.head? = some Ev.throttleStart) ∧
    (∀ (C : Type) (issueId : String) (remote : Nat → Except LinError (Option C)),
      (addComment issueId remote).events.head? = some Ev.throttleStart) ∧
    (∀ remote : Nat → Except LinError User,
      (healthCheck remote).events.head? = some Ev.throttleStart) ∧
    (∀ (I : Type) (viewer : Except LinError User)
        (remote : SearchRequest → Nat → Except LinError (List I))
        (query : String) (teamId status assigneeId : Option String) (limit : Nat),
      Ev.throttleStart ∉ (searchIssues (I := I) viewer remote query teamId
        status assigneeId limit).run.events) ∧
    (∀ (I : Type) (viewerId : String)
        (remote : IssueCreateInput → Nat → Except LinError (Option I))
        (teamId title : String) (description : Option String)
        (assigneeId : Option String) (priority : Option Int),
      Ev.throttleStart ∉ (createIssue (I := I) viewerId remote teamId title
        description assigneeId priority).run.events) ∧
    (∀ (I : Type) (viewerId : String)
        (remote : IssueUpdateInput → Nat → Except LinError (Option I))
        (issueId : String) (updates : UpdateArgs),
      Ev.throttleStart ∉ (updateIssue (I := I) viewerId remote issueId
        updates).run.events) ∧
    (∀ a : Nat → Nat, Monotone a → ∀ w N,
      ((Finset.range N).filter (fun k => w ≤ throttleStarts a k ∧
        throttleStarts a k < w + throttleInterval)).card ≤ throttleLimit) := by
  refine ⟨?_, ?_, ?_, ?_, ?_, ?_, ?_, ?_, throttleStarts_window⟩
  · intro T st now remote
    unfold getTeams
    rcases h : withRetry remote "client.teams" with ⟨res, evs⟩
    rcases st with _ | entry
    · cases res <;> simp [h, throttleWrap]
    · by_cases hv : now < entry.expiry
      · simp [hv, throttleWrap]
      · cases res <;> simp [hv, h, throttleWrap]
  · intro I issueId remote
    rfl
  · intro S cacheMap now teamId remote
    unfold getWorkflowStates
    rcases hm : mapGet cacheMap teamId with _ | cached
    · rcases h : withRetry (fun attempt =>
          match remote attempt with
          | .ok none =>
            .error ⟨"Team not found: " ++ teamId, some 404, some ErrorCode.InvalidRequest⟩
          | .ok (some states) => .ok states
          | .error e => .error e) "client.team" with ⟨res, evs⟩
      cases res <;> simp [h, throttleWrap]
    · by_cases hv : now < cached.expiry
      · simp [hv, throttleWrap]
      · rcases h : withRetry (fun attempt =>
            match remote attempt with
            | .ok none =>
              .error ⟨"Team not found: " ++ teamId, some 404, some ErrorCode.InvalidRequest⟩
            | .ok (some states) => .ok states
            | .error e => .error e) "client.team" with ⟨res, evs⟩
        cases res <;> simp [hv, h, throttleWrap]
  · intro C issueId remote
    rfl
  · intro remote
    rfl
  · intro I viewer remote query teamId status assigneeId limit
    by_cases hme : assigneeId = some "me"
    · subst hme
      cases hv : viewer with
      | error e =>
        rw [searchIssues_me_error _ _ _ _ _ _ _ rfl]
        simp
      | ok v =>
        rw [searchIssues_me_ok _ _ _ _ _ _ _ rfl]
        exact (searchIssuesFetch_props remote query _).1
    · rw [searchIssues_not_me _ _ _ _ _ _ _ hme]
      exact (searchIssuesFetch_props remote query _).1
  · intro I viewerId remote teamId title description assigneeId priority
    rw [createIssue_run_events]
    exact withRetryGo_no_throttle _ _ _ _
  · intro I viewerId remote issueId updates
    rw [updateIssue_run_events]
    exact withRetryGo_no_throttle _ _ _ _

/-- C4 witness: the sliding-window bound instantiated at a burst of 25
simultaneous arrivals, and a throttled operation's trace opening with an
admission event. -/
theorem rate_limiter_coverage_and_window_witness :
    ((Finset.range 25).filter (fun k => 0 ≤ throttleStarts (fun _ => 0) k ∧
      throttleStarts (fun _ => 0) k < 0 + throttleInterval)).card ≤ throttleLimit ∧
    (healthCheck (fun _ => .ok ⟨"u1", "Alice"⟩)).events.head? = some Ev.throttleStart :=
  ⟨rate_limiter_coverage_and_window.2.2.2.2.2.2.2.2 (fun _ => 0) monotone_const 0 25,
   rate_limiter_coverage_and_window.2.2.2.2.1 (fun _ => .ok ⟨"u1", "Alice"⟩)⟩

/-- The viewer-cache validity test of the source:
`viewerCache && viewerCacheExpiry && now < viewerCacheExpiry`. -/
def viewerCacheValid (st : ViewerCacheState) (now : Nat) : Bool :=
  match st.viewerCache, st.viewerCacheExpiry with
  | some _, some e => decide (now < e)
  | _, _ => false

/-- The teams-cache validity test of the source:
`teamsCache && now < teamsCache.expiry`. -/
def teamsCacheValid {T : Type} (st : Option (CacheEntry T)) (now : Nat) : Bool :=
  match st with
  | some entry => decide (now < entry.expiry)
  | none => false

/-- The per-team workflow-states-cache validity test of the source:
`cached && now < cached.expiry` after the map lookup. -/
def wfCacheValid {S : Type} (m : List (String × CacheEntry S)) (teamId : String)
    (now : Nat) : Bool :=
  match mapGet m teamId with
  | some c => decide (now < c.expiry)
  | none => false

theorem mapGet_mapSet_self {V : Type} :
    ∀ (m : List (String × V)) (k : String) (v : V), mapGet (mapSet m k v) k = some v := by
  intro m
  induction m with
  | nil => intro k v; simp [mapSet, mapGet]
  | cons p rest ih =>
    intro k v
    rcases p with ⟨k', v'⟩
    by_cases h : k' = k
    · simp [mapSet, mapGet, h]
    · simp only [mapSet, h, if_false]
      simp [mapGet, h, ih]

theorem getCachedViewer_hit (st : ViewerCacheState) (now : Nat)
    (fresh : Except LinError User) (u : User) (e : Nat)
    (h1 : st.viewerCache = some u) (h2 : st.viewerCacheExpiry = some e) (h3 : now < e) :
    getCachedViewer st now fresh = (.ok u, st, false) := by
  rcases st with ⟨vc, ve⟩
  simp only at h1 h2
  subst h1; subst h2
  simp [getCachedViewer, h3]

theorem getCachedViewer_miss (st : ViewerCacheState) (now : Nat) (u' : User)
    (hv : viewerCacheValid st now = false) :
    getCachedViewer st now (.ok u')
      = (.ok u', ⟨some u', some (now + VIEWER_CACHE_TTL)⟩, true) := by
  rcases st with ⟨vc, ve⟩
  cases vc <;> cases ve <;> simp_all [viewerCacheValid, getCachedViewer]

theorem getTeams_hit {T : Type} (entry : CacheEntry T) (now : Nat)
    (remote : Nat → Except LinError T) (h : now < entry.expiry) :
    getTeams (some entry) now remote = (throttleWrap ⟨.ok entry.data, []⟩, some entry) := by
  simp [getTeams, h]

theorem getTeams_miss_ok {T : Type} (st : Option (CacheEntry T)) (now : Nat)
    (remote : Nat → Except LinError T) (ts : T)
    (hv : teamsCacheValid st now = false) (h0 : remote 0 = .ok ts) :
    getTeams st now remote
      = (throttleWrap ⟨.ok ts, [.remoteCall "client.teams"]⟩,
          some ⟨ts, now + TEAMS_CACHE_TTL⟩) := by
  have hw := withRetry_first_ok remote "client.teams" ts h0
  rcases st with _ | entry
  · simp [getTeams, hw]
  · simp only [teamsCacheValid, decide_eq_false_iff_not] at hv
    simp [getTeams, hv, hw]

theorem getTeams_count_le_one {T : Type} (st : Option (CacheEntry T)) (now : Nat)
    (remote : Nat → Except LinError T) (ts : T) (h0 : remote 0 = .ok ts) :
    callCount (getTeams st now remote).1.events ≤ 1 := by
  by_cases hv : teamsCacheValid st now
  · rcases st with _ | entry
    · simp [teamsCacheValid] at hv
    · simp only [teamsCacheValid, decide_eq_true_eq] at hv
      rw [getTeams_hit entry now remote hv]
      simp [throttleWrap, callCount]
  · rw [getTeams_miss_ok st now remote ts (by simpa using hv) h0]
    simp [throttleWrap, callCount]

theorem getWorkflowStates_hit {S : Type} (m : List (String × CacheEntry S)) (now : Nat)
    (teamId : String) (remote : Nat → Except LinError (Option S)) (c : CacheEntry S)
    (hm : mapGet m teamId = some c) (h : now < c.expiry) :
    getWorkflowStates m now teamId remote = (throttleWrap ⟨.ok c.data, []⟩, m) := by
  simp [getWorkflowStates, hm, h]

theorem getWorkflowStates_miss_ok {S : Type} (m : List (String × CacheEntry S)) (now : Nat)
    (teamId : String) (remote : Nat → Except LinError (Option S)) (sts : S)
    (hv : wfCacheValid m teamId now = false) (h0 : remote 0 = .ok (some sts)) :
    getWorkflowStates m now teamId remote
      = (throttleWrap ⟨.ok sts, [.remoteCall "client.team"]⟩,
          mapSet m teamId ⟨sts, now + WORKFLOW_STATES_CACHE_TTL⟩) := by
  have hfn : ((fun attempt =>
      match remote attempt with
      | .ok none => .error ⟨"Team not found: " ++ teamId, some 404, some ErrorCode.InvalidRequest⟩
      | .ok (some states) => .ok states
      | .error e => .error e : Nat → Except LinError S)) 0 = .ok sts := by simp [h0]
  have hw := withRetry_first_ok (fun attempt =>
      match remote attempt with
      | .ok none => .error ⟨"Team not found: " ++ teamId, some 404, some ErrorCode.InvalidRequest⟩
      | .ok (some states) => .ok states
      | .error e => .error e : Nat → Except LinError S) "client.team" sts hfn
  unfold getWorkflowStates
  rcases hm : mapGet m teamId with _ | c
  · rw [hw]
  · simp only [wfCacheValid, hm, decide_eq_false_iff_not] at hv
    simp [hv, hw]

theorem getWorkflowStates_count_le_one {S : Type} (m : List (String × CacheEntry S))
    (now : Nat) (teamId : String) (remote : Nat → Except LinError (Option S)) (sts : S)
    (h0 : remote 0 = .ok (some sts)) :
    callCount (getWorkflowStates m now teamId remote).1.events ≤ 1 := by
  by_cases hv : wfCacheValid m teamId now
  · rcases hm : mapGet m teamId with _ | c
    · simp [wfCacheValid, hm] at hv
    · simp only [wfCacheValid, hm, decide_eq_true_eq] at hv
      rw [getWorkflowStates_hit m now teamId remote c hm hv]
      simp [throttleWrap, callCount]
  · rw [getWorkflowStates_miss_ok m now teamId remote sts (by simpa using hv) h0]
    simp [throttleWrap, callCount]

/-- C3: for each cacheable operation (viewer with 5-minute TTL, teams
with 10-minute TTL, workflow states with 15-minute per-team TTL) a call
finding a cached entry with `now < expiresAt` returns the cached value
without a remote call, a lookup at `now ≥ expiresAt` is a miss, and a
miss fetches from the remote and stores the result with
`expiresAt = now + TTL`; consequently two calls within the TTL window
issue at most one remote call, and a call after TTL expiry issues a new
remote call. -/
theorem cache_ttl_policy :
    (∀ (st : ViewerCacheState) (now : Nat) (fresh : Except LinError User)
        (u : User) (e : Nat),
      st.viewerCache = some u → st.viewerCacheExpiry = some e → now < e →
      getCachedViewer st now fresh = (.ok u, st, false)) ∧
    (∀ (st : ViewerCacheState) (now : Nat) (u' : User),
      viewerCacheValid st now = false →
      getCachedViewer st now (.ok u')
        = (.ok u', ⟨some u', some (now + VIEWER_CACHE_TTL)⟩, true)) ∧
    (∀ (st : ViewerCacheState) (t0 t1 : Nat) (u0 u1 : User),
      t0 ≤ t1 → t1 < t0 + VIEWER_CACHE_TTL →
      (getCachedViewer st t0 (.ok u0)).2.2.toNat
        + (getCachedViewer (getCachedViewer st t0 (.ok u0)).2.1 t1 (.ok u1)).2.2.toNat ≤ 1) ∧
    (∀ (st : ViewerCacheState) (t0 t2 : Nat) (u0 : User) (fresh : Except LinError User),
      viewerCacheValid st t0 = false → t0 + VIEWER_CACHE_TTL ≤ t2 →
      (getCachedViewer (getCachedViewer st t0 (.ok u0)).2.1 t2 fresh).2.2 = true) ∧
    (∀ (T : Type) (entry : CacheEntry T) (now : Nat) (remote : Nat → Except LinError T),
      now < entry.expiry →
      (getTeams (some entry) now remote).1.result = .ok entry.data ∧
        callCount (getTeams (some entry) now remote).1.events = 0 ∧
        (getTeams (some entry) now remote).2 = some entry) ∧
    (∀ (T : Type) (st : Option (CacheEntry T)) (now : Nat)
        (remote : Nat → Except LinError T) (ts : T),
      teamsCacheValid st now = false → remote 0 = .ok ts →
      (getTeams st now remote).1.result = .ok ts ∧
        callCount (getTeams st now remote).1.events = 1 ∧
        (getTeams st now remote).2 = some ⟨ts, now + TEAMS_CACHE_TTL⟩) ∧
    (∀ (T : Type) (st : Option (CacheEntry T)) (t0 t1 : Nat)
        (r0 r1 : Nat → Except LinError T) (ts0 ts1 : T),
      r0 0 = .ok ts0 → r1 0 = .ok ts1 → t0 ≤ t1 → t1 < t0 + TEAMS_CACHE_TTL →
      callCount (getTeams st t0 r0).1.events
        + callCount (getTeams (getTeams st t0 r0).2 t1 r1).1.events ≤ 1) ∧
    (∀ (T : Type) (st : Option (CacheEntry T)) (t0 t2 : Nat)
        (r0 r1 : Nat → Except LinError T) (ts0 ts1 : T),
      teamsCacheValid st t0 = false → r0 0 = .ok ts0 → r1 0 = .ok ts1 →
      t0 + TEAMS_CACHE_TTL ≤ t2 →
      callCount (getTeams (getTeams st t0 r0).2 t2 r1).1.events = 1) ∧
    (∀ (S : Type) (m : List (String × CacheEntry S)) (now : Nat) (teamId : String)
        (remote : Nat → Except LinError (Option S)) (c : CacheEntry S),
      mapGet m teamId = some c → now < c.expiry →
      (getWorkflowStates m now teamId remote).1.result = .ok c.data ∧
        callCount (getWorkflowStates m now teamId remote).1.events = 0 ∧
        (getWorkflowStates m now teamId remote).2 = m) ∧
    (∀ (S : Type) (m : List (String × CacheEntry S)) (now : Nat) (teamId : String)
        (remote : Nat → Except LinError (Option S)) (sts : S),
      wfCacheValid m teamId now = false → remote 0 = .ok (some sts) →
      (getWorkflowStates m now teamId remote).1.result = .ok sts ∧
        callCount (getWorkflowStates m now teamId remote).1.events = 1 ∧
        (getWorkflowStates m now teamId remote).2
          = mapSet m teamId ⟨sts, now + WORKFLOW_STATES_CACHE_TTL⟩) ∧
    (∀ (S : Type) (m : List (String × CacheEntry S)) (t0 t1 : Nat) (teamId : String)
        (r0 r1 : Nat → Except LinError (Option S)) (sts0 sts1 : S),
      r0 0 = .ok (some sts0) → r1 0 = .ok (some sts1) → t0 ≤ t1 →
      t1 < t0 + WORKFLOW_STATES_CACHE_TTL →
      callCount (getWorkflowStates m t0 teamId r0).1.events
        + callCount (getWorkflowStates (getWorkflowStates m t0 teamId r0).2 t1 teamId
            r1).1.events ≤ 1) ∧
    (∀ (S : Type) (m : List (String × CacheEntry S)) (t0 t2 : Nat) (teamId : String)
        (r0 r1 : Nat → Except LinError (Option S)) (sts0 sts1 : S),
      wfCacheValid m teamId t0 = false → r0 0 = .ok (some sts0) → r1 0 = .ok (some sts1) →
      t0 + WORKFLOW_STATES_CACHE_TTL ≤ t2 →
      callCount (getWorkflowStates (getWorkflowStates m t0 teamId r0).2 t2 teamId
        r1).1.events = 1) := by
  refine ⟨getCachedViewer_hit, getCachedViewer_miss, ?_, ?_, ?_, ?_, ?_, ?_, ?_, ?_, ?_, ?_⟩
  · -- viewer: two calls inside the TTL window fetch at most once
    intro st t0 t1 u0 u1 h01 hwin
    by_cases hv : viewerCacheValid st t0
    · rcases st with ⟨vc, ve⟩
      cases vc with
      | none => simp [viewerCacheValid] at hv
      | some u =>
        cases ve with
        | none => simp [viewerCacheValid] at hv
        | some e =>
          simp only [viewerCacheValid, decide_eq_true_eq] at hv
          rw [getCachedViewer_hit ⟨some u, some e⟩ t0 (.ok u0) u e rfl rfl hv]
          simp only [Bool.toNat_false, zero_add]
          cases (getCachedViewer ⟨some u, some e⟩ t1 (.ok u1)).2.2 <;> simp
    · rw [getCachedViewer_miss st t0 u0 (by simpa using hv)]
      rw [getCachedViewer_hit ⟨some u0, some (t0 + VIEWER_CACHE_TTL)⟩ t1 (.ok u1) u0
        (t0 + VIEWER_CACHE_TTL) rfl rfl hwin]
      simp
  · -- viewer: a call at or after the stored expiry fetches again
    intro st t0 t2 u0 fresh hv h2
    rw [getCachedViewer_miss st t0 u0 hv]
    have hlt : ¬ t2 < t0 + VIEWER_CACHE_TTL := by omega
    cases fresh <;> simp [getCachedViewer, hlt]
  · -- teams: cache hit
    intro T entry now remote h
    rw [getTeams_hit entry now remote h]
    simp [throttleWrap, callCount]
  · -- teams: miss fetches once and stores now + TTL
    intro T st now remote ts hv h0
    rw [getTeams_miss_ok st now remote ts hv h0]
    simp [throttleWrap, callCount]
  · -- teams: two calls inside the TTL window fetch at most once
    intro T st t0 t1 r0 r1 ts0 ts1 h0 h1 h01 hwin
    by_cases hv : teamsCacheValid st t0
    · rcases st with _ | entry
      · simp [teamsCacheValid] at hv
      · simp only [teamsCacheValid, decide_eq_true_eq] at hv
        rw [getTeams_hit entry t0 r0 hv]
        have hle := getTeams_count_le_one (some entry) t1 r1 ts1 h1
        simp only [throttleWrap, callCount, List.filter, List.length] at hle ⊢
        omega
    · rw [getTeams_miss_ok st t0 r0 ts0 (by simpa using hv) h0]
      rw [getTeams_hit ⟨ts0, t0 + TEAMS_CACHE_TTL⟩ t1 r1 hwin]
      simp [throttleWrap, callCount]
  · -- teams: a call at or after the stored expiry fetches again
    intro T st t0 t2 r0 r1 ts0 ts1 hv h0 h1 h2
    rw [getTeams_miss_ok st t0 r0 ts0 hv h0]
    have hv2 : teamsCacheValid (some (⟨ts0, t0 + TEAMS_CACHE_TTL⟩ : CacheEntry T)) t2
        = false := by
      simp only [teamsCacheValid, decide_eq_false_iff_not]
      omega
    rw [getTeams_miss_ok _ t2 r1 ts1 hv2 h1]
    simp [throttleWrap, callCount]
  · -- workflow states: cache hit
    intro S m now teamId remote c hm h
    rw [getWorkflowStates_hit m now teamId remote c hm h]
    simp [throttleWrap, callCount]
  · -- workflow states: miss fetches once and stores now + TTL
    intro S m now teamId remote sts hv h0
    rw [getWorkflowStates_miss_ok m now teamId remote sts hv h0]
    simp [throttleWrap, callCount]
  · -- workflow states: two calls inside the TTL window fetch at most once
    intro S m t0 t1 teamId r0 r1 sts0 sts1 h0 h1 h01 hwin
    by_cases hv : wfCacheValid m teamId t0
    · rcases hm : mapGet m teamId with _ | c
      · simp [wfCacheValid, hm] at hv
      · simp only [wfCacheValid, hm, decide_eq_true_eq] at hv
        rw [getWorkflowStates_hit m t0 teamId r0 c hm hv]
        have hle := getWorkflowStates_count_le_one m t1 teamId r1 sts1 h1
        simp only [throttleWrap, callCount, List.filter, List.length] at hle ⊢
        omega
    · rw [getWorkflowStates_miss_ok m t0 teamId r0 sts0 (by simpa using hv) h0]
      rw [getWorkflowStates_hit _ t1 teamId r1 ⟨sts0, t0 + WORKFLOW_STATES_CACHE_TTL⟩
        (mapGet_mapSet_self m teamId _) hwin]
      simp [throttleWrap, callCount]
  · -- workflow states: a call at or after the stored expiry fetches again
    intro S m t0 t2 teamId r0 r1 sts0 sts1 hv h0 h1 h2
    rw [getWorkflowStates_miss_ok m t0 teamId r0 sts0 hv h0]
    have hv2 : wfCacheValid (mapSet m teamId
        (⟨sts0, t0 + WORKFLOW_STATES_CACHE_TTL⟩ : CacheEntry S)) teamId t2 = false := by
      simp only [wfCacheValid, mapGet_mapSet_self, decide_eq_false_iff_not]
      omega
    rw [getWorkflowStates_miss_ok _ t2 teamId r1 sts1 hv2 h1]
    simp [throttleWrap, callCount]

/-- C3 witness: concrete hits, misses, a two-call window and a
post-expiry refetch. -/
theorem cache_ttl_policy_witness :
    getCachedViewer ⟨some ⟨"u1", "Alice"⟩, some 100⟩ 50 (.ok ⟨"u2", "Bob"⟩)
      = (.ok ⟨"u1", "Alice"⟩, ⟨some ⟨"u1", "Alice"⟩, some 100⟩, false) ∧
    (callCount (getTeams (none : Option (CacheEntry Nat)) 0 (fun _ => .ok 7)).1.events
      + callCount (getTeams (getTeams (none : Option (CacheEntry Nat)) 0
          (fun _ => .ok 7)).2 1 (fun _ => .ok 8)).1.events ≤ 1) ∧
    callCount (getWorkflowStates (getWorkflowStates ([] : List (String × CacheEntry Nat)) 0
      "T1" (fun _ => .ok (some 5))).2 900000 "T1" (fun _ => .ok (some 6))).1.events = 1 :=
  ⟨cache_ttl_policy.1 ⟨some ⟨"u1", "Alice"⟩, some 100⟩ 50 (.ok ⟨"u2", "Bob"⟩)
      ⟨"u1", "Alice"⟩ 100 rfl rfl (by decide),
   cache_ttl_policy.2.2.2.2.2.2.1 Nat none 0 1 (fun _ => .ok 7) (fun _ => .ok 8) 7 8
      rfl rfl (by decide) (by decide),
   cache_ttl_policy.2.2.2.2.2.2.2.2.2.2.2 Nat [] 0 900000 "T1" (fun _ => .ok (some 5))
      (fun _ => .ok (some 6)) 5 6 rfl rfl rfl (by decide)⟩

example : isClientError ⟨"Entity not found: 404", none, none⟩ = true := by decide

example : isClientError ⟨"ECONNRESET", none, none⟩ = false := by decide

example :
    (withRetry (fun _ => (.error ⟨"ECONNRESET", none, none⟩ : Except LinError Nat)) "x").events
      = [.remoteCall "x", .retryDelay 1000, .remoteCall "x", .retryDelay 2000,
         .remoteCall "x", .retryDelay 4000, .remoteCall "x"] := by rfl
